import Mathlib

set_option maxHeartbeats 1000000

/-!
Shallow embedding of vinted/elasticsearch_exporter.rs.

The embedding covers the metric classification engine
(src/metric/metric_type.rs, `TryFrom<RawMetric> for MetricType`) and the
per-subsystem polling loop (src/metrics/mod.rs, the body of the
`poll_metrics!` macro).  Machine integers are modelled as Nat/Int with
explicit bounds and modular casts; the f64 payload of JSON numbers is
modelled as a rational (exact for every finite double; no claim below
depends on float rounding).
-/

/-- Maximum value of a 64-bit signed integer; `i64::MAX` in the source. -/
def i64Max : Nat := 9223372036854775807

/-- Numbers as stored by serde_json's `Number`: non-negative integers as a
u64 (`posInt`), negative integers as an i64 (`negInt`), and floating point
values as an f64 (`float`, payload modelled as a rational). -/
inductive Number
  | posInt (n : Nat)
  | negInt (n : Int)
  | float (q : Rat)
  deriving DecidableEq, Repr

/-- Scalar JSON values: serde_json's `Value` restricted to the scalar shapes
that reach the classifier (arrays and objects are flattened away upstream,
per the spec's data model). -/
inductive Value
  | null
  | bool (b : Bool)
  | num (n : Number)
  | str (s : String)
  deriving DecidableEq, Repr

namespace Value

/-- serde_json `Value::is_boolean`. -/
def is_boolean : Value → Bool
  | .bool _ => true
  | _ => false

/-- serde_json `Value::as_bool`. -/
def as_bool : Value → Option Bool
  | .bool b => some b
  | _ => none

/-- serde_json `Value::is_null`. -/
def is_null : Value → Bool
  | .null => true
  | _ => false

/-- serde_json `Value::is_number`. -/
def is_number : Value → Bool
  | .num _ => true
  | _ => false

/-- serde_json `Value::is_i64`: a u64 is i64-representable iff it is at most
`i64::MAX`; a negative integer always is; a float never is. -/
def is_i64 : Value → Bool
  | .num (.posInt n) => n ≤ i64Max
  | .num (.negInt _) => true
  | _ => false

/-- serde_json `Value::is_f64`: true exactly for numbers stored as f64. -/
def is_f64 : Value → Bool
  | .num (.float _) => true
  | _ => false

/-- serde_json `Value::as_i64`. -/
def as_i64 : Value → Option Int
  | .num (.posInt n) => if n ≤ i64Max then some (n : Int) else none
  | .num (.negInt n) => some n
  | _ => none

/-- serde_json `Value::as_f64`: every stored number converts (integers are
cast, floats are returned as stored). -/
def as_f64 : Value → Option Rat
  | .num (.posInt n) => some (n : Rat)
  | .num (.negInt n) => some (n : Rat)
  | .num (.float q) => some q
  | _ => none

/-- serde_json `Value::as_str`. -/
def as_str : Value → Option String
  | .str s => some s
  | _ => none

end Value

/-- Raw metric input: the pair `(&str, &Value)` called `RawMetric` in the
source (`metric.0` is the key, `metric.1` the value). -/
abbrev RawMetric := String × Value

/-- Classified metric kinds: `enum MetricType` from the source.  `Time`
carries a `Duration` built with `Duration::from_millis`, modelled by its
u64 millisecond count. -/
inductive MetricType
  | time (millis : Nat)
  | bytes (n : Int)
  | gauge (n : Int)
  | gaugeF (q : Rat)
  | switch (n : Nat)
  | label (s : String)
  | null
  deriving DecidableEq, Repr

/-- Modelled from the spec: `MetricError` lives in src/metric/mod.rs, which
is not among the sources.  Its shape follows the spec's ClassificationError
`(key, raw, kind)` taxonomy and the constructor calls visible in
metric_type.rs (`MetricError::unknown`, `MetricError::from_parse_int`,
`MetricError::from_parse_float`); the std parse-error payloads are not
retained. -/
inductive MetricError
  | unknown (key : String) (raw : Option Value)
  | parseIntFailure (raw : Option Value)
  | parseFloatFailure (raw : Option Value)
  deriving DecidableEq, Repr

/-- Error taxonomy of the spec's ClassificationError. -/
inductive ErrorKind
  | unknownValue
  | parseIntFailureKind
  | parseFloatFailureKind
  deriving DecidableEq, Repr

/-- Kind projection of a MetricError. -/
def MetricError.kind : MetricError → ErrorKind
  | .unknown _ _ => .unknownValue
  | .parseIntFailure _ => .parseIntFailureKind
  | .parseFloatFailure _ => .parseFloatFailureKind

/-- Reinterpretation of an i64 as a u64 — the `as u64` cast in the time
branch of the source: reduction modulo 2^64 (negative values wrap). -/
def i64AsU64 (i : Int) : Nat := (i % (2 : Int) ^ 64).toNat

/-- Numeric value of a list of decimal digit characters. -/
def digitsVal (cs : List Char) : Nat :=
  cs.foldl (fun a c => a * 10 + (c.toNat - 48)) 0

/-- Check that every character is a decimal ASCII digit. -/
def allDigits (cs : List Char) : Bool :=
  cs.all Char.isDigit

/-- Rust `str::parse::<i64>`: an optional single sign followed by one or
more decimal digits, rejecting anything else and rejecting values outside
the i64 range (checked overflow). -/
def parseI64String (s : String) : Option Int :=
  let cs := s.toList
  let signDigits : Int × List Char :=
    match cs with
    | '+' :: rest => (1, rest)
    | '-' :: rest => (-1, rest)
    | _ => (1, cs)
  if signDigits.2 ≠ [] ∧ allDigits signDigits.2 then
    let v : Int := signDigits.1 * (digitsVal signDigits.2 : Int)
    if -((i64Max : Int) + 1) ≤ v ∧ v ≤ (i64Max : Int) then some v else none
  else none

/-- Split a character list at the first character satisfying `p`, returning
the prefix and (when a split happened) the remainder. -/
def splitOnce (p : Char → Bool) : List Char → List Char × Option (List Char)
  | [] => ([], none)
  | c :: rest =>
    if p c then ([], some rest)
    else
      let r := splitOnce p rest
      (c :: r.1, r.2)

/-- Mantissa of Rust's f64 grammar: `digit+`, `digit+ '.' digit*` or
`digit* '.' digit+`, valued as an exact rational. -/
def parseMantissa (cs : List Char) : Option Rat :=
  let sp := splitOnce (fun c => c = '.') cs
  match sp.2 with
  | none =>
    if sp.1 ≠ [] ∧ allDigits sp.1 then some ((digitsVal sp.1 : Rat)) else none
  | some fp =>
    if (sp.1 ≠ [] ∨ fp ≠ []) ∧ allDigits sp.1 ∧ allDigits fp then
      some ((digitsVal sp.1 : Rat) + (digitsVal fp : Rat) / ((10 : Rat) ^ fp.length))
    else none

/-- Exponent part of Rust's f64 grammar: optional sign then `digit+`. -/
def parseExponent (cs : List Char) : Option Int :=
  let signDigits : Int × List Char :=
    match cs with
    | '+' :: rest => (1, rest)
    | '-' :: rest => (-1, rest)
    | _ => (1, cs)
  if signDigits.2 ≠ [] ∧ allDigits signDigits.2 then
    some (signDigits.1 * (digitsVal signDigits.2 : Int))
  else none

/-- Rust `str::parse::<f64>`, modelled exactly over rationals: optional
sign, mantissa, optional `e`/`E` exponent.  The special forms
`inf`/`infinity`/`nan` have no rational representation and are modelled as
a parse failure; no claim depends on them, nor on binary rounding. -/
def parseF64String (s : String) : Option Rat :=
  let cs := s.toList
  let signRest : Rat × List Char :=
    match cs with
    | '+' :: rest => (1, rest)
    | '-' :: rest => (-1, rest)
    | _ => (1, cs)
  let sp := splitOnce (fun c => c = 'e' ∨ c = 'E') signRest.2
  match parseMantissa sp.1, sp.2 with
  | some m, none => some (signRest.1 * m)
  | some m, some ecs =>
    match parseExponent ecs with
    | some e => some (signRest.1 * m * (10 : Rat) ^ e)
    | none => none
  | none, _ => none

/-- Rust `str::replace("%", "")`: remove every percent character. -/
def replacePercent (s : String) : String :=
  String.mk (s.toList.filter (fun c => c != '%'))

/-- Local closure `parse_i64` of `try_from`: a native number converts via
`as_i64` with 0 as default, a string is parsed as i64 (failure is a
ParseIntFailure), anything else is an UnknownValue error. -/
def parse_i64 (key : String) (value : Value) : Except MetricError Int :=
  if value.is_number then
    .ok ((value.as_i64).getD 0)
  else
    match value.as_str with
    | none => .error (.unknown key (some value))
    | some n =>
      match parseI64String n with
      | some k => .ok k
      | none => .error (.parseIntFailure (some value))

/-- Local closure `parse_f64` of `try_from`: a number stored as f64 is
returned as is, a string is parsed as f64 after stripping percent signs
(failure is a ParseFloatFailure), anything else — including integers — is
an UnknownValue error. -/
def parse_f64 (key : String) (value : Value) : Except MetricError Rat :=
  if value.is_f64 then
    .ok ((value.as_f64).getD 0)
  else
    match value.as_str with
    | none => .error (.unknown key (some value))
    | some n =>
      match parseF64String (replacePercent n) with
      | some q => .ok q
      | none => .error (.parseFloatFailure (some value))

/-- Byte-count keys: the first match arm of `try_from`. -/
def byteKeys : List String := ["size", "memory", "store", "bytes"]

/-- Time keys: the second match arm of `try_from`. -/
def timeKeys : List String := ["epoch", "timestamp", "date", "time", "millis", "alive"]

/-- Switch keys of the second match in `try_from`. -/
def switchKeys : List String :=
  ["out", "value", "committed", "searchable", "compound", "throttled"]

/-- Integer-gauge keys of the second match in `try_from`. -/
def intGaugeKeys : List String :=
  ["primaries", "min", "max", "successful", "nodes", "fetch", "order",
   "largest", "rejected", "completed", "queue", "active", "core", "tasks",
   "relo", "unassign", "init", "files", "ops", "recovered", "generation",
   "contexts", "listeners", "pri", "rep", "docs", "count", "pid",
   "compilations", "deleted", "shards", "indices", "checkpoint", "avail",
   "used", "cpu", "triggered", "evictions", "failed", "total", "current"]

/-- Float-gauge keys of the second match in `try_from`. -/
def floatGaugeKeys : List String :=
  ["avg", "1m", "5m", "15m", "number", "percent"]

/-- Label keys of the second match in `try_from`. -/
def labelKeys : List String :=
  ["cluster", "repository", "snapshot", "stage", "uuid", "component",
   "master", "role", "uptime", "alias", "filter", "search", "flavor",
   "string", "address", "health", "build", "node", "state", "patterns",
   "of", "segment", "host", "ip", "prirep", "id", "status", "at", "for",
   "details", "reason", "port", "attr", "field", "shard", "index", "name",
   "type", "version", "jdk", "description"]

/-- Body of `TryFrom<RawMetric> for MetricType::try_from` (the spec's
`classify`), written over `(key, value)`.  The two Rust `match metric.0`
statements on disjoint string literals are rendered as the equivalent
membership tests, in source order: boolean, null, byte keys, time keys,
the numeric fallthrough of the first match, then the second match (switch
keys, the "data" special case, integer-gauge keys, float-gauge keys, label
keys, catch-all).  The `cfg!(debug_assertions)` println block of the
catch-all arm is side-effect only and does not change the result, so it is
omitted. -/
def classify (key : String) (value : Value) : Except MetricError MetricType :=
  if value.is_boolean then
    .ok (.switch (if (value.as_bool).getD false then 1 else 0))
  else if value.is_null then
    .ok .null
  else if byteKeys.contains key then
    (parse_i64 key value).map MetricType.bytes
  else if timeKeys.contains key then
    .ok (.time (i64AsU64 (((parse_i64 key value).toOption).getD 0)))
  else if value.is_number then
    if value.is_i64 then
      (parse_i64 key value).map MetricType.gauge
    else
      (parse_f64 key value).map MetricType.gaugeF
  else if switchKeys.contains key then
    .ok (.switch (if (value.as_bool).getD false then 1 else 0))
  else if key = "data" then
    match parse_i64 key value with
    | .ok number => .ok (.gauge number)
    | .error _ =>
      match value.as_str with
      | some s => .ok (.label s)
      | none => .error (.unknown key (some value))
  else if intGaugeKeys.contains key then
    (parse_i64 key value).map MetricType.gauge
  else if floatGaugeKeys.contains key then
    (parse_f64 key value).map MetricType.gaugeF
  else if labelKeys.contains key then
    match value.as_str with
    | some s => .ok (.label s)
    | none => .error (.unknown key (some value))
  else
    match value.as_str with
    | some s => .ok (.label s)
    | none => .error (.unknown key (some value))

/-- Entry point `TryFrom::try_from(metric: RawMetric)` of the source,
destructuring the pair. -/
def MetricType.try_from (metric : RawMetric) : Except MetricError MetricType :=
  classify metric.1 metric.2

/-- Outcome of the numeric fallthrough of the first `match` in `try_from`
(the spec's rule 5 as the code realises it), named for use in the amended
claims: i64-representable integers become integer gauges, floats become
float gauges, and unsigned integers above `i64::MAX` fall into `parse_f64`
on a non-string value, an UnknownValue error. -/
def numericRuleResult (key : String) (n : Number) : Except MetricError MetricType :=
  match n with
  | .posInt m =>
    if m ≤ i64Max then .ok (.gauge (m : Int))
    else .error (.unknown key (some (.num n)))
  | .negInt m => .ok (.gauge m)
  | .float q => .ok (.gaugeF q)

/-- Modelled from the spec: `Collection` and `Collection::collect` live in
crate::collection, which is not among the sources.  Per the spec (§4.2,
§7), `collect` classifies one raw metric; a classification failure is
logged and the metric skipped (it does not abort the batch), a classified
metric is forwarded to the sink.  The state records the forwarded metrics,
the logged classification failures, and how many times `collect` was
invoked; `collect` returns its Result to the caller, which the polling
loop discards. -/
structure Collection where
  forwarded : List (String × MetricType) := []
  classifyLog : List (String × MetricError) := []
  collectCalls : Nat := 0
  deriving DecidableEq, Repr

/-- Modelled from the spec: one `collection.collect(metric)` call, see
`Collection`. -/
def Collection.collect (c : Collection) (m : RawMetric) :
    Collection × Except MetricError Unit :=
  match MetricType.try_from m with
  | .ok t =>
    ({ c with forwarded := c.forwarded ++ [(m.1, t)],
              collectCalls := c.collectCalls + 1 }, .ok ())
  | .error e =>
    ({ c with classifyLog := c.classifyLog ++ [(m.1, e)],
              collectCalls := c.collectCalls + 1 }, .error e)

/-- Body of the `Ok(metrics)` arm of the polling loop in `poll_metrics!`:
`for metric in metrics { let _ = collection.collect(metric); }` — every
fetched metric is passed to `collect` and each Result is discarded. -/
def processBatch (c : Collection) (metrics : List RawMetric) : Collection :=
  metrics.foldl (fun acc m => (acc.collect m).1) c

/-- State threaded through the polling loop of `poll_metrics!`: the
collection, the fetch failures logged by the `Err` arm (subsystem name and
error text, mirroring `error!("poll {} metrics err {}", ...)`), and the
number of completed loop iterations (each iteration observes the request
histogram timer exactly once). -/
structure PollerState where
  collection : Collection := {}
  fetchLog : List (String × String) := []
  observations : Nat := 0
  deriving DecidableEq, Repr

/-- One iteration of the polling loop in `poll_metrics!`, given the result
of `metrics(&exporter).await` for this tick: on success every fetched
metric is collected, on failure only a log entry is appended; the
histogram timer is observed either way, and the loop never exits. -/
def pollCycle (subsystem : String) (st : PollerState)
    (fetched : Except String (List RawMetric)) : PollerState :=
  match fetched with
  | .ok metrics =>
    { st with collection := processBatch st.collection metrics,
              observations := st.observations + 1 }
  | .error e =>
    { st with fetchLog := st.fetchLog ++ [(subsystem, e)],
              observations := st.observations + 1 }

/-- First `n` iterations of the infinite polling loop of `poll_metrics!`,
driven by the list of the fetch results of the successive ticks. -/
def poll (subsystem : String)
    (fetches : List (Except String (List RawMetric))) : PollerState :=
  fetches.foldl (pollCycle subsystem) {}

/-- Concrete ten-element batch used by the batch-isolation claim: nine
classifiable raw metrics and one ("bytes", "abc") whose classification
fails with a ParseIntFailure. -/
def demoBatch : List RawMetric :=
  [("size", .num (.posInt 100)),
   ("timestamp", .str "oops"),
   ("cluster", .str "prod-1"),
   ("active", .str "3"),
   ("percent", .str "73.5%"),
   ("out", .str "true"),
   ("name", .str "es-node"),
   ("foo", .str "bar"),
   ("id", .str "abc123"),
   ("bytes", .str "abc")]

/-- Outcome of classification for the key "data" as the code realises it,
named for use in the amended "data" claim: booleans and null are claimed
by the top rules, numbers by the numeric fallthrough (so an unsigned
integer above `i64::MAX` is an UnknownValue error), and strings by the
"data" arm of the second match (integer parse, falling back to a label). -/
def dataRuleResult (v : Value) : Except MetricError MetricType :=
  match v with
  | .bool b => .ok (.switch (if b then 1 else 0))
  | .null => .ok .null
  | .num (.posInt m) =>
    if m ≤ i64Max then .ok (.gauge (m : Int))
    else .error (.unknown "data" (some v))
  | .num (.negInt m) => .ok (.gauge m)
  | .num (.float q) => .ok (.gaugeF q)
  | .str s =>
    match parseI64String s with
    | some k => .ok (.gauge k)
    | none => .ok (.label s)

/-!
Shared routing lemmas about `classify`.  They are proved once and reused by
the several claim theorems below.
-/

/-- Routing lemma: for a key outside the byte-key and time-key sets, a
numeric value is settled entirely by the numeric fallthrough of the first
match. -/
theorem classify_num_fallthrough (key : String) (n : Number)
    (hb : key ∉ byteKeys) (ht : key ∉ timeKeys) :
    classify key (.num n) = numericRuleResult key n := by
  cases n with
  | posInt m =>
    by_cases h : m ≤ i64Max
    · simp [classify, numericRuleResult, Value.is_boolean, Value.is_null, Value.is_number,
        Value.is_i64, Value.as_i64, parse_i64, hb, ht, h, Except.map]
    · simp [classify, numericRuleResult, Value.is_boolean, Value.is_null, Value.is_number,
        Value.is_i64, Value.is_f64, Value.as_str, parse_f64, hb, ht, h, Except.map]
  | negInt m =>
    simp [classify, numericRuleResult, Value.is_boolean, Value.is_null, Value.is_number,
      Value.is_i64, Value.as_i64, parse_i64, hb, ht, Except.map]
  | float q =>
    simp [classify, numericRuleResult, Value.is_boolean, Value.is_null, Value.is_number,
      Value.is_i64, Value.is_f64, Value.as_f64, parse_f64, hb, ht, Except.map]

/-- Routing lemma: a label key applied to a string value reaches the label
arm of the second match and yields that string as a label. -/
theorem classify_label_str (key : String) (s : String) (hk : key ∈ labelKeys) :
    classify key (.str s) = .ok (.label s) := by
  have hb : key ∉ byteKeys := by
    have h : ∀ x ∈ labelKeys, x ∉ byteKeys := by decide
    exact h key hk
  have ht : key ∉ timeKeys := by
    have h : ∀ x ∈ labelKeys, x ∉ timeKeys := by decide
    exact h key hk
  have hs : key ∉ switchKeys := by
    have h : ∀ x ∈ labelKeys, x ∉ switchKeys := by decide
    exact h key hk
  have hd : key ≠ "data" := by
    have h : ∀ x ∈ labelKeys, x ≠ "data" := by decide
    exact h key hk
  have hi : key ∉ intGaugeKeys := by
    have h : ∀ x ∈ labelKeys, x ∉ intGaugeKeys := by decide
    exact h key hk
  have hf : key ∉ floatGaugeKeys := by
    have h : ∀ x ∈ labelKeys, x ∉ floatGaugeKeys := by decide
    exact h key hk
  simp [classify, Value.is_boolean, Value.is_null, Value.is_number, Value.as_str,
    hb, ht, hs, hd, hi, hf, hk]

/-- Routing lemma: a time key applied to any non-boolean, non-null value
reaches the time arm of the first match, which cannot fail. -/
theorem classify_time_any (key : String) (v : Value) (hk : key ∈ timeKeys)
    (hbool : v.is_boolean = false) (hnull : v.is_null = false) :
    classify key v = .ok (.time (i64AsU64 (((parse_i64 key v).toOption).getD 0))) := by
  have hb : key ∉ byteKeys := by
    have h : ∀ x ∈ timeKeys, x ∉ byteKeys := by decide
    exact h key hk
  simp [classify, hbool, hnull, hb, hk]

/-- Processing a batch calls `Collection.collect` once per fetched metric,
whatever the individual results are. -/
theorem processBatch_collectCalls (ms : List RawMetric) : ∀ c : Collection,
    (processBatch c ms).collectCalls = c.collectCalls + ms.length := by
  induction ms with
  | nil => intro c; simp [processBatch]
  | cons m rest ih =>
    intro c
    have hstep : processBatch c (m :: rest) = processBatch ((c.collect m).1) rest := rfl
    have hcall : ((c.collect m).1).collectCalls = c.collectCalls + 1 := by
      cases h : MetricType.try_from m <;> simp [Collection.collect, h]
    rw [hstep, ih, hcall]
    simp [List.length_cons]
    omega

/-- Processing a batch forwards exactly the classifiable metrics, in
order, independently of any failures in between. -/
theorem processBatch_forwarded (ms : List RawMetric) : ∀ c : Collection,
    (processBatch c ms).forwarded =
      c.forwarded ++ ms.filterMap
        (fun m => ((MetricType.try_from m).toOption).map (fun t => (m.1, t))) := by
  induction ms with
  | nil => intro c; simp [processBatch]
  | cons m rest ih =>
    intro c
    have hstep : processBatch c (m :: rest) = processBatch ((c.collect m).1) rest := rfl
    rw [hstep, ih]
    cases h : MetricType.try_from m <;>
      simp [Collection.collect, h, Except.toOption, List.filterMap_cons]

/-- The polling loop performs exactly one instrumented iteration per tick,
whether the fetch succeeded or failed. -/
theorem poll_foldl_observations (sub : String)
    (fetches : List (Except String (List RawMetric))) : ∀ st : PollerState,
    (fetches.foldl (pollCycle sub) st).observations = st.observations + fetches.length := by
  induction fetches with
  | nil => intro st; simp
  | cons f rest ih =>
    intro st
    have hstep : (f :: rest).foldl (pollCycle sub) st
        = rest.foldl (pollCycle sub) (pollCycle sub st f) := rfl
    have hone : (pollCycle sub st f).observations = st.observations + 1 := by
      cases f <;> simp [pollCycle]
    rw [hstep, ih, hone]
    simp [List.length_cons]
    omega

/-!
Claim theorems.
-/

/-- C1, counterexample: the claim asserts `classify("cluster", 5)` fails
with UnknownValue, but "cluster" is a label key and 5 is numeric, so the
numeric fallthrough (which precedes the label rule) returns `Gauge(5)`
with no error. -/
theorem C1_counterexample :
    "cluster" ∈ labelKeys ∧
    classify "cluster" (.num (.posInt 5)) = .ok (.gauge 5) :=
  ⟨by decide, rfl⟩

/-- C1 (amended): for every key in the label-key set, a string value
yields `Label(value)`; non-string scalars never reach the label rule —
booleans yield `Switch`, null yields `Null`, and numbers are settled by
the earlier numeric fallthrough (`Gauge` for i64-representable integers,
`GaugeF` for floats, and an UnknownValue error only for unsigned integers
above `i64::MAX`).  In particular `classify("cluster", 5) = Gauge(5)`,
not an UnknownValue error. -/
theorem C1_label_keys_amended (key : String) (hk : key ∈ labelKeys) :
    (∀ s, classify key (.str s) = .ok (.label s)) ∧
    (∀ b, classify key (.bool b) = .ok (.switch (if b then 1 else 0))) ∧
    (classify key .null = .ok .null) ∧
    (∀ n : Number, classify key (.num n) = numericRuleResult key n) := by
  have hb : key ∉ byteKeys := by
    have h : ∀ x ∈ labelKeys, x ∉ byteKeys := by decide
    exact h key hk
  have ht : key ∉ timeKeys := by
    have h : ∀ x ∈ labelKeys, x ∉ timeKeys := by decide
    exact h key hk
  refine ⟨fun s => classify_label_str key s hk, fun b => ?_, rfl,
    fun n => classify_num_fallthrough key n hb ht⟩
  cases b <;> rfl

/-- C1, witness: the amended claim evaluated at the label key "cluster"
with a string and with the numeric value 5. -/
theorem C1_witness :
    "cluster" ∈ labelKeys ∧
    classify "cluster" (.str "prod-1") = .ok (.label "prod-1") ∧
    classify "cluster" (.num (.posInt 5)) = numericRuleResult "cluster" (.posInt 5) :=
  ⟨by decide,
   (C1_label_keys_amended "cluster" (by decide)).1 "prod-1",
   (C1_label_keys_amended "cluster" (by decide)).2.2.2 (.posInt 5)⟩

/-- C2, counterexample: the claim asserts every numeric value outside the
byte/time keys yields `Gauge` or `GaugeF`, but an unsigned integer above
`i64::MAX` (here 2^63) is neither i64-representable nor stored as f64, so
the float branch calls `parse_f64` on a non-string and fails with
UnknownValue. -/
theorem C2_counterexample :
    "foo" ∉ byteKeys ∧ "foo" ∉ timeKeys ∧
    classify "foo" (.num (.posInt 9223372036854775808)) =
      .error (.unknown "foo" (some (.num (.posInt 9223372036854775808)))) :=
  ⟨by decide, by decide, rfl⟩

/-- C2 (amended): for every key outside the byte-key and time-key sets and
every numeric value, the numeric fallthrough fires before the switch-key,
"data", integer-gauge-key, float-gauge-key, label-key and catch-all rules:
i64-representable integers yield `Gauge(int64)`, floats yield
`GaugeF(float64)`, and unsigned integers above `i64::MAX` yield an
UnknownValue error. -/
theorem C2_numeric_rule_amended (key : String) (n : Number)
    (hb : key ∉ byteKeys) (ht : key ∉ timeKeys) :
    classify key (.num n) = numericRuleResult key n :=
  classify_num_fallthrough key n hb ht

/-- C2, witness: the amended claim evaluated at the key "foo" with the
float 5/2, which classifies as a float gauge. -/
theorem C2_witness :
    "foo" ∉ byteKeys ∧ "foo" ∉ timeKeys ∧
    classify "foo" (.num (.float (5 / 2))) = numericRuleResult "foo" (.float (5 / 2)) ∧
    numericRuleResult "foo" (.float (5 / 2)) = .ok (.gaugeF (5 / 2)) :=
  ⟨by decide, by decide,
   C2_numeric_rule_amended "foo" (.float (5 / 2)) (by decide) (by decide), rfl⟩

/-- C3, counterexample: the claim asserts `parseInt` truncates a native
number to an integer, but for the float 7/2 (= 3.5, whose truncation is 3)
serde's `as_i64` returns None and `unwrap_or(0)` yields 0, so
`classify("bytes", 3.5) = Bytes(0)`, not `Bytes(3)`. -/
theorem C3_counterexample :
    classify "bytes" (.num (.float (7 / 2))) = .ok (.bytes 0) ∧
    ⌊(7 : Rat) / 2⌋ = 3 :=
  ⟨rfl, by norm_num⟩

/-- C3 (amended): for every key in the byte-key set, classification
returns `Bytes(parse_i64(value))`, where `parse_i64` accepts a native
number via serde's `as_i64` with default 0 — i.e. it returns the number
itself when it is an i64-representable integer and 0 (not a truncation)
for floats and for unsigned integers above `i64::MAX` — and parses a
numeric string, failing with ParseIntFailure on a non-numeric string; in
particular `classify("bytes", 1048576) = Bytes(1048576)`,
`classify("bytes", "1048576") = Bytes(1048576)`, and
`classify("bytes", "abc")` fails with ParseIntFailure. -/
theorem C3_byte_keys_amended (key : String) (hk : key ∈ byteKeys) :
    (∀ n : Nat, n ≤ i64Max → classify key (.num (.posInt n)) = .ok (.bytes (n : Int))) ∧
    (∀ n : Int, classify key (.num (.negInt n)) = .ok (.bytes n)) ∧
    (∀ q : Rat, classify key (.num (.float q)) = .ok (.bytes 0)) ∧
    (∀ n : Nat, i64Max < n → classify key (.num (.posInt n)) = .ok (.bytes 0)) ∧
    (∀ s k, parseI64String s = some k → classify key (.str s) = .ok (.bytes k)) ∧
    (∀ s, parseI64String s = none →
      classify key (.str s) = .error (.parseIntFailure (some (.str s)))) := by
  refine ⟨fun n h => ?_, fun n => ?_, fun q => ?_, fun n h => ?_,
    fun s k hp => ?_, fun s hp => ?_⟩
  · simp [classify, Value.is_boolean, Value.is_null, Value.is_number, Value.is_i64,
      Value.as_i64, parse_i64, hk, h, Except.map]
  · simp [classify, Value.is_boolean, Value.is_null, Value.is_number, Value.is_i64,
      Value.as_i64, parse_i64, hk, Except.map]
  · simp [classify, Value.is_boolean, Value.is_null, Value.is_number, Value.is_i64,
      Value.as_i64, parse_i64, hk, Except.map]
  · have h' : ¬ n ≤ i64Max := by omega
    simp [classify, Value.is_boolean, Value.is_null, Value.is_number, Value.is_i64,
      Value.as_i64, parse_i64, hk, h', Except.map]
  · simp [classify, Value.is_boolean, Value.is_null, Value.is_number, Value.as_str,
      parse_i64, hk, hp, Except.map]
  · simp [classify, Value.is_boolean, Value.is_null, Value.is_number, Value.as_str,
      parse_i64, hk, hp, Except.map]

/-- C3, witness: the amended claim evaluated at the key "bytes" on the
claim's own example inputs. -/
theorem C3_witness :
    "bytes" ∈ byteKeys ∧
    classify "bytes" (.num (.posInt 1048576)) = .ok (.bytes 1048576) ∧
    classify "bytes" (.str "1048576") = .ok (.bytes 1048576) ∧
    classify "bytes" (.str "abc") = .error (.parseIntFailure (some (.str "abc"))) :=
  ⟨by decide,
   (C3_byte_keys_amended "bytes" (by decide)).1 1048576 (by decide),
   (C3_byte_keys_amended "bytes" (by decide)).2.2.2.2.1 "1048576" 1048576 (by decide),
   (C3_byte_keys_amended "bytes" (by decide)).2.2.2.2.2 "abc" (by decide)⟩

/-- C4, counterexample: the claim asserts the time branch returns
`Time(parseInt(value) milliseconds)`, but the parsed i64 is cast `as u64`,
so the parsable value "-1" does not yield a duration of -1 ms (which the
Duration type cannot even represent) — it wraps to 2^64 - 1 milliseconds. -/
theorem C4_counterexample :
    classify "timestamp" (.str "-1") = .ok (.time 18446744073709551615) ∧
    parse_i64 "timestamp" (.str "-1") = .ok (-1) :=
  ⟨rfl, rfl⟩

/-- C4 (amended): for every key in the time-key set and every non-boolean,
non-null value, classification never returns an error: it returns
`Time(ms)` where ms is the parsed i64 reinterpreted as a u64 (so negative
parses wrap modulo 2^64), degrading to `Time(0)` when the value cannot be
parsed as an integer; in particular
`classify("timestamp", "not-a-number") = Time(0 ms)`. -/
theorem C4_time_keys_amended (key : String) (v : Value) (hk : key ∈ timeKeys)
    (hbool : v.is_boolean = false) (hnull : v.is_null = false) :
    classify key v = .ok (.time (i64AsU64 (((parse_i64 key v).toOption).getD 0))) :=
  classify_time_any key v hk hbool hnull

/-- C4, witness: the amended claim evaluated at the time key "timestamp"
with the unparsable string of the claim, which degrades to a zero
duration. -/
theorem C4_witness :
    "timestamp" ∈ timeKeys ∧
    (Value.str "not-a-number").is_boolean = false ∧
    (Value.str "not-a-number").is_null = false ∧
    classify "timestamp" (.str "not-a-number") =
      .ok (.time (i64AsU64 (((parse_i64 "timestamp" (.str "not-a-number")).toOption).getD 0))) ∧
    i64AsU64 (((parse_i64 "timestamp" (.str "not-a-number")).toOption).getD 0) = 0 :=
  ⟨by decide, rfl, rfl,
   C4_time_keys_amended "timestamp" (.str "not-a-number") (by decide) rfl rfl, rfl⟩

/-- C5: for every key, `classify(key, true) = Switch(1)` and
`classify(key, false) = Switch(0)` — the boolean check is the first test
of `try_from` and fires before any key-based rule. -/
theorem C5_bool_top_priority : ∀ key : String,
    classify key (.bool true) = .ok (.switch 1) ∧
    classify key (.bool false) = .ok (.switch 0) :=
  fun _ => ⟨rfl, rfl⟩

/-- C6, counterexample: the claim asserts `classify("data", v)` never
errors for a scalar v, but the unsigned integer 2^63 is numeric and not
i64-representable, so the numeric fallthrough (which precedes the "data"
rule) fails with UnknownValue. -/
theorem C6_counterexample :
    classify "data" (.num (.posInt 9223372036854775808)) =
      .error (.unknown "data" (some (.num (.posInt 9223372036854775808)))) :=
  rfl

/-- C6 (amended): for the key "data", booleans yield `Switch`, null yields
`Null`, numbers are settled by the earlier numeric fallthrough (`Gauge`
for i64-representable integers, `GaugeF` for floats, and an UnknownValue
error for unsigned integers above `i64::MAX`), and strings reach the
"data" arm: integer-parsable strings yield `Gauge` of the parsed integer
and other strings yield `Label` of the string; in particular
`classify("data", 42) = Gauge(42)` and
`classify("data", "/var/lib/es/0") = Label("/var/lib/es/0")`. -/
theorem C6_data_key_amended :
    (∀ v : Value, classify "data" v = dataRuleResult v) ∧
    classify "data" (.num (.posInt 42)) = .ok (.gauge 42) ∧
    classify "data" (.str "/var/lib/es/0") = .ok (.label "/var/lib/es/0") := by
  refine ⟨fun v => ?_, rfl, rfl⟩
  cases v with
  | bool b => cases b <;> rfl
  | null => rfl
  | num n =>
    cases n with
    | posInt m =>
      by_cases h : m ≤ i64Max
      · simp [classify, dataRuleResult, Value.is_boolean, Value.is_null, Value.is_number,
          Value.is_i64, Value.as_i64, parse_i64, h, Except.map, byteKeys, timeKeys]
      · simp [classify, dataRuleResult, Value.is_boolean, Value.is_null, Value.is_number,
          Value.is_i64, Value.is_f64, Value.as_str, parse_f64, h, Except.map,
          byteKeys, timeKeys]
    | negInt m =>
      simp [classify, dataRuleResult, Value.is_boolean, Value.is_null, Value.is_number,
        Value.is_i64, Value.as_i64, parse_i64, Except.map, byteKeys, timeKeys]
    | float q =>
      simp [classify, dataRuleResult, Value.is_boolean, Value.is_null, Value.is_number,
        Value.is_i64, Value.is_f64, Value.as_f64, parse_f64, Except.map, byteKeys, timeKeys]
  | str s =>
    cases hp : parseI64String s with
    | some k =>
      simp [classify, dataRuleResult, Value.is_boolean, Value.is_null, Value.is_number,
        Value.as_str, parse_i64, hp, byteKeys, timeKeys, switchKeys]
    | none =>
      simp [classify, dataRuleResult, Value.is_boolean, Value.is_null, Value.is_number,
        Value.as_str, parse_i64, hp, byteKeys, timeKeys, switchKeys]

/-- C7: within one poll cycle the loop invokes `Collection.collect` on
every fetched metric and discards each Result, so one failure never
interrupts the rest of the batch: collect is called once per metric, the
forwarded metrics are exactly the classifiable ones, and the concrete
ten-element batch with one unclassifiable metric forwards exactly nine. -/
theorem C7_batch_isolation :
    (∀ (c : Collection) (ms : List RawMetric),
      (processBatch c ms).collectCalls = c.collectCalls + ms.length) ∧
    (∀ (c : Collection) (ms : List RawMetric),
      (processBatch c ms).forwarded = c.forwarded ++
        ms.filterMap (fun m => ((MetricType.try_from m).toOption).map (fun t => (m.1, t)))) ∧
    demoBatch.length = 10 ∧
    (processBatch {} demoBatch).collectCalls = 10 ∧
    (processBatch {} demoBatch).forwarded.length = 9 :=
  ⟨fun c ms => processBatch_collectCalls ms c,
   fun c ms => processBatch_forwarded ms c,
   by decide, by decide, by decide⟩

/-- C8: a fetch failure is isolated to its own cycle: the `Err` arm only
appends a log entry carrying the subsystem name and changes nothing else
(no metric forwarded, no retry), and the loop still performs exactly one
instrumented iteration per scheduled tick whatever each fetch returned,
so cycle n+1 runs after a failed cycle n. -/
theorem C8_fetch_failure_isolated :
    (∀ (sub : String) (st : PollerState) (e : String),
      pollCycle sub st (.error e) =
        { st with fetchLog := st.fetchLog ++ [(sub, e)],
                  observations := st.observations + 1 }) ∧
    (∀ (sub : String) (fetches : List (Except String (List RawMetric))),
      (poll sub fetches).observations = fetches.length) := by
  refine ⟨fun _ _ _ => rfl, fun sub fetches => ?_⟩
  have h := poll_foldl_observations sub fetches {}
  simpa [poll] using h

/-- C9: classification is total over all well-formed scalar inputs — for
every key and scalar value it returns either exactly one MetricType or a
typed error whose kind is UnknownValue, ParseIntFailure or
ParseFloatFailure (the embedding is a total function, mirroring that the
source has no panicking path: every unwrap is an `unwrap_or`). -/
theorem C9_classification_total : ∀ (key : String) (v : Value),
    (∃ t, classify key v = .ok t) ∨
    (∃ e, classify key v = .error e ∧
      (e.kind = .unknownValue ∨ e.kind = .parseIntFailureKind ∨
        e.kind = .parseFloatFailureKind)) := by
  intro key v
  cases classify key v with
  | ok t => exact .inl ⟨t, rfl⟩
  | error e =>
    refine .inr ⟨e, rfl, ?_⟩
    cases e <;> simp [MetricError.kind]

/-- C10: for every key outside the byte-key and time-key sets, a numeric
value stored as a u64 above `i64::MAX` classifies as an UnknownValue
error rather than a Gauge or GaugeF: it is not i64-representable, so the
float branch runs `parse_f64`, whose string fallback fails on a
non-string value. -/
theorem C10_u64_overflow_unknown (key : String) (n : Nat)
    (hb : key ∉ byteKeys) (ht : key ∉ timeKeys)
    (hgt : i64Max < n) (hlt : n < 2 ^ 64) :
    classify key (.num (.posInt n)) =
      .error (.unknown key (some (.num (.posInt n)))) := by
  rw [classify_num_fallthrough key (.posInt n) hb ht]
  have h' : ¬ n ≤ i64Max := by omega
  simp [numericRuleResult, h']

/-- C10, witness: the theorem evaluated at the key "foo" and the value
2^63, the least u64 above `i64::MAX`. -/
theorem C10_witness :
    "foo" ∉ byteKeys ∧ "foo" ∉ timeKeys ∧
    i64Max < 9223372036854775808 ∧ 9223372036854775808 < 2 ^ 64 ∧
    classify "foo" (.num (.posInt 9223372036854775808)) =
      .error (.unknown "foo" (some (.num (.posInt 9223372036854775808)))) :=
  ⟨by decide, by decide, by decide, by decide,
   C10_u64_overflow_unknown "foo" 9223372036854775808
     (by decide) (by decide) (by decide) (by decide)⟩
